import Mathlib

/-!
Shallow embedding of the versioned job/package orchestrator of the
`filentio/visa` backend (`src/backend/app/main.py`, `models.py`, `utils.py`,
`db.py`).

Modelling conventions:
* Database rows become Lean structures holding exactly the MAPPED columns
  of the SQLAlchemy models in `models.py`.  The `jobs.version`,
  `jobs.started_at`, `jobs.finished_at` and `packages.version_counter`
  columns added by `db._ensure_schema` via raw `ALTER TABLE` are NOT mapped
  by the models, so the ORM never reads or writes them.  Consequences
  embedded here: passing one of them to a model constructor raises
  `TypeError` (SQLAlchemy's declarative constructor rejects unknown keyword
  arguments; the unhandled exception surfaces as HTTP 500 and nothing is
  committed); `getattr(obj, name, default)` on one of them always takes
  the default; assigning one sets a transient Python attribute that the
  unit of work never persists.
* The database session becomes an explicit `DB` value threaded through each
  handler.  A handler returns `Except ApiError DB`: `.ok db'` corresponds to
  a committed transaction, `.error e` to an `HTTPException` (or a propagated
  `IntegrityError`) raised before commit, in which case the session is
  discarded by `get_db` and nothing is persisted (`postState`).
* Timestamps (`func.now()`) and dates are opaque `Nat` values passed in as
  the parameter `now` / `today`.
* `uuid.uuid4()` (`utils.new_id`) becomes explicit fresh-id parameters.
* `secrets.randbelow k` consumes one entropy word `r : Nat` and is modelled
  as `r % k`, which is exactly its range contract.
* The Redis queue (`queue.enqueue_job`) is an external effect performed
  after commit; it does not touch the ledger and is not part of `DB`.
-/

namespace Visa

/-- Job lifecycle states (`models.JobStatus`). -/
inductive JobStatus where
  | queued
  | running
  | done
  | error
deriving DecidableEq, Repr

/-- Package states (`models.PackageStatus`). -/
inductive PackageStatus where
  | created
  | generated
  | error
deriving DecidableEq, Repr

/-- FX-rate sources (`models.FxSource`). -/
inductive FxSource where
  | manual
  | cbr
deriving DecidableEq, Repr

/-- Currencies (`models.Currency`). -/
inductive Currency where
  | USD
  | AED
deriving DecidableEq, Repr

/-- Document types (`models.DocumentType`). -/
inductive DocumentType where
  | contract
  | bank
  | insurance
  | salary
  | bundle
deriving DecidableEq, Repr

/-- A `clients` row (`models.Client`); `dob` is an opaque day ordinal. -/
structure Client where
  id : String
  full_name : String
  passport_no : String
  dob : Nat
  mrz : Option String
  issuing_country : Option String
deriving DecidableEq, Repr

/-- A `companies` row (`models.Company`). -/
structure Company where
  id : String
  name : String
  seal_key : String
  logo_key : String
  director_sign_key : String
  client_sign_key : String
deriving DecidableEq, Repr

/-- A `packages` row: the mapped columns of `models.Package`.  The
`version_counter` column exists only at the SQL level
(`db._ensure_schema`); it is not a mapped attribute, so no handler can
read or persist it through the ORM.  Monetary values are rationals. -/
structure Package where
  id : String
  status : PackageStatus
  client_id : String
  company_id : String
  currency : Currency
  fx_source : FxSource
  fx_rate : Rat
  salary_rub : Rat
  position : String
  start_date : Nat
  contract_start_date : Nat
  contract_number : String
  contract_template : String
  insurance_template : String
  country_display : String
  address : String
deriving DecidableEq, Repr

/-- A `jobs` row: the mapped columns of `models.Job` (id, package
reference, status, error message).  The `version`, `started_at` and
`finished_at` columns exist only at the SQL level (`db._ensure_schema`);
they are not mapped attributes, so handler reads of them take `getattr`
defaults and handler writes to them are transient, never committed.  The
error message is kept as a character list so that truncation is
`List.take`. -/
structure Job where
  id : String
  package_id : String
  status : JobStatus
  error_message : Option (List Char)
deriving DecidableEq, Repr

/-- A `documents` row (`models.Document`). -/
structure Document where
  id : String
  package_id : String
  doc_type : DocumentType
  version : Nat
  filename : String
  storage_key : String
  content_type : String
deriving DecidableEq, Repr

/-- The ledger: the five tables of `models.py`. -/
structure DB where
  clients : List Client
  companies : List Company
  packages : List Package
  jobs : List Job
  documents : List Document
deriving DecidableEq, Repr

/-- Error outcomes of a handler, mirroring the `HTTPException` status codes
raised in `main.py` (404, 400, 409, 502) and a propagated or caught
database `IntegrityError` / exhausted allocation (500). -/
inductive ApiError where
  | notFound
  | badRequest (detail : String)
  | conflict
  | badGateway
  | internalError (detail : String)
deriving DecidableEq, Repr

/-- The row `SELECT ... WHERE jobs.id = job_id` (`scalar_one_or_none`). -/
def DB.findJob (db : DB) (job_id : String) : Option Job :=
  db.jobs.find? (fun j => j.id == job_id)

/-- The row `SELECT ... WHERE packages.id = package_id`. -/
def DB.findPackage (db : DB) (package_id : String) : Option Package :=
  db.packages.find? (fun p => p.id == package_id)

/-- The row `SELECT ... WHERE companies.id = company_id`. -/
def DB.findCompany (db : DB) (company_id : String) : Option Company :=
  db.companies.find? (fun c => c.id == company_id)

/-- In-place mutation of the job row with the given id (the ORM mutates the
loaded object; at commit the row with that primary key is updated). -/
def updateJob (jobs : List Job) (job_id : String) (f : Job → Job) : List Job :=
  jobs.map (fun j => if j.id == job_id then f j else j)

/-- In-place mutation of the package row with the given id. -/
def updatePackage (packages : List Package) (package_id : String)
    (f : Package → Package) : List Package :=
  packages.map (fun p => if p.id == package_id then f p else p)

/-- The ledger state a caller observes after the handler returns: the new
state on commit, the old state when an exception aborted the session before
commit (`db.get_db` closes the session without committing). -/
def postState (db : DB) : Except ApiError DB → DB
  | .ok db' => db'
  | .error _ => db

/-- A handler call that committed. -/
def succeeds (r : Except ApiError DB) : Prop := ∃ db', r = Except.ok db'

/-- Handler for `POST /internal/jobs/{job_id}/start`
(`main.internal_job_start`): guard `status == queued`, then
`status := running` and `error_message := None` are persisted.  The
source also runs `job.started_at = func.now()`, but `started_at` is not a
mapped attribute of `models.Job`, so that write is transient and the
committed row's `started_at` column stays untouched; `now` remains in the
signature as the clock value the source consults. -/
def internal_job_start (db : DB) (now : Nat) (job_id : String) :
    Except ApiError DB :=
  match db.findJob job_id with
  | none => .error .notFound
  | some job =>
    if job.status = JobStatus.queued then
      .ok { db with
        jobs := updateJob db.jobs job_id (fun j =>
          { j with status := JobStatus.running, error_message := none }) }
    else
      .error .conflict

/-- Handler for `POST /internal/jobs/{job_id}/fail`
(`main.internal_job_fail`): guard `status == running`, then
`status := error`, `error_message := body.error_message[:2000]` and
`package.status := error` are persisted in one commit.  The source also
runs `job.finished_at = func.now()`, but `finished_at` is not a mapped
attribute of `models.Job`, so that write is transient and the committed
row never stores a finish timestamp. -/
def internal_job_fail (db : DB) (now : Nat) (job_id : String)
    (error_message : List Char) : Except ApiError DB :=
  match db.findJob job_id with
  | none => .error .notFound
  | some job =>
    if job.status = JobStatus.running then
      match db.findPackage job.package_id with
      | none => .error (.internalError "package row missing")
      | some _pkg =>
        .ok { db with
          jobs := updateJob db.jobs job_id (fun j =>
            { j with status := JobStatus.error,
                     error_message := some (error_message.take 2000) }),
          packages := updatePackage db.packages job.package_id (fun p =>
            { p with status := PackageStatus.error }) }
    else
      .error .conflict

/-- One entry of the `files` array of `POST /internal/jobs/{job_id}/complete`
(`schemas.InternalCompleteIn.files : list[dict]`); every field is read with
`dict.get`, hence optional. -/
structure FileItem where
  doc_type : Option String
  storage_key : Option String
  filename : Option String
  content_type : Option String
  version : Option Int
deriving DecidableEq, Repr

/-- Python truthiness test `not x` for an optional string: `None` and the
empty string are falsy. -/
def strFalsy : Option String → Bool
  | some s => s == ""
  | none => true

/-- The expression `f.get("content_type") or "application/octet-stream"`. -/
def contentTypeOrDefault : Option String → String
  | some s => if s == "" then "application/octet-stream" else s
  | none => "application/octet-stream"

/-- The enum constructor `models.DocumentType(str(doc_type))`, failing on an
unknown value. -/
def DocumentType.ofString : String → Option DocumentType
  | "contract" => some DocumentType.contract
  | "bank" => some DocumentType.bank
  | "insurance" => some DocumentType.insurance
  | "salary" => some DocumentType.salary
  | "bundle" => some DocumentType.bundle
  | _ => none

/-- The per-file loop body of `internal_job_complete` (`main.py` lines
601-627): validation and construction of the staged `Document` rows, in
submission order; the first failing file aborts the whole call.  `newId i`
stands for the `utils.new_id()` call of the i-th file. -/
def buildDocuments (newId : Nat → String) (pkg_id : String)
    (expected_version : Nat) : Nat → List FileItem →
    Except ApiError (List Document)
  | _, [] => .ok []
  | i, f :: rest =>
    if strFalsy f.doc_type || strFalsy f.storage_key || strFalsy f.filename then
      .error (.badRequest "Invalid file item")
    else
      match DocumentType.ofString (f.doc_type.getD "") with
      | none => .error (.badRequest "Invalid doc_type")
      | some doc_type_enum =>
        if (match f.version with
            | some v => v != (expected_version : Int)
            | none => false) then
          .error (.badRequest "version mismatch")
        else
          match buildDocuments newId pkg_id expected_version (i + 1) rest with
          | .error e => .error e
          | .ok docs =>
            .ok ({ id := newId i, package_id := pkg_id,
                   doc_type := doc_type_enum, version := expected_version,
                   filename := f.filename.getD "",
                   storage_key := f.storage_key.getD "",
                   content_type := contentTypeOrDefault f.content_type } :: docs)

/-- The key of the database uniqueness constraint
`uq_documents_pkg_type_ver` on `(package_id, doc_type, version)`
(`models.Document.__table_args__`). -/
def docKey (d : Document) : String × DocumentType × Nat :=
  (d.package_id, d.doc_type, d.version)

/-- Handler for `POST /internal/jobs/{job_id}/complete`
(`main.internal_job_complete`): guard `status == running`, stage one
`Document` row per file, set the job to `done` and the package to
`generated`, then commit once; the commit enforces
`uq_documents_pkg_type_ver` and a violation (an uncaught `IntegrityError`)
aborts the whole transaction.  Two unmapped-column consequences: the
source's `expected_version = int(getattr(job, "version", 1))` is always
the constant 1 (`models.Job` maps no `version` attribute), so every staged
document carries version 1 and declared artifact versions are compared
against 1; and `job.finished_at = func.now()` is a transient write the
committed row never stores. -/
def internal_job_complete (db : DB) (now : Nat) (newId : Nat → String)
    (job_id : String) (files : List FileItem) : Except ApiError DB :=
  match db.findJob job_id with
  | none => .error .notFound
  | some job =>
    if job.status = JobStatus.running then
      match db.findPackage job.package_id with
      | none => .error (.internalError "package row missing")
      | some pkg =>
        let expected_version := 1
        match buildDocuments newId pkg.id expected_version 0 files with
        | .error e => .error e
        | .ok newDocs =>
          if ((db.documents ++ newDocs).map docKey).Nodup then
            .ok { db with
              documents := db.documents ++ newDocs,
              jobs := updateJob db.jobs job_id (fun j =>
                { j with status := JobStatus.done, error_message := none }),
              packages := updatePackage db.packages job.package_id (fun p =>
                { p with status := PackageStatus.generated }) }
          else
            .error (.internalError "DB integrity error")
    else
      .error .conflict

/-- The range contract of `secrets.randbelow(bound)`: an arbitrary entropy
word reduced into `[0, bound)`. -/
def randbelow (bound entropy : Nat) : Nat := entropy % bound

/-- `utils.generate_contract_number`: a six-digit random number over a
year, `f"{n}/{year}"` with `n = secrets.randbelow(900000) + 100000`. -/
def generate_contract_number (entropy year : Nat) : String :=
  let n := randbelow 900000 entropy + 100000
  toString n ++ "/" ++ toString year

/-- The numeric part of the candidate produced from one entropy word. -/
def contract_number_numeric (entropy : Nat) : Nat :=
  randbelow 900000 entropy + 100000

/-- `utils.random_start_date_within_last_6_months`:
`today - timedelta(days=secrets.randbelow(181))`, on day ordinals. -/
def random_start_date_within_last_6_months (today entropy : Nat) : Nat :=
  today - randbelow (180 + 1) entropy

/-- `utils.issuing_country_from_mrz`: best-effort extraction of the 3-letter
issuing country from the first MRZ line (`P<XXX`), with a fallback search
for `P<` anywhere in the line. -/
def issuing_country_from_mrz (mrz : String) : Option String :=
  let raw := mrz.trim
  if raw == "" then none
  else
    let lines := ((raw.splitOn "\n").map String.trim).filter (fun ln => ln != "")
    match lines with
    | [] => none
    | line1 :: _ =>
      let primary : Option String :=
        if line1.length ≥ 5 && line1.startsWith "P<" then
          let code := (line1.drop 2).take 3
          if code.length > 0 && code.all Char.isAlpha then some code.toUpper
          else none
        else none
      match primary with
      | some code => some code
      | none =>
        let parts := line1.splitOn "P<"
        if parts.length ≥ 2 then
          let after := String.intercalate "P<" (parts.drop 1)
          if after.length ≥ 3 then
            let code := after.take 3
            if code.length > 0 && code.all Char.isAlpha then some code.toUpper
            else none
          else none
        else none

/-- `utils.country_display_from_issuing`, with the `_MRZ_MAP` table. -/
def country_display_from_issuing (code : Option String) : String :=
  match code with
  | none => "RUSSIA, Moscow"
  | some c =>
    if c == "" then "RUSSIA, Moscow"
    else
      let code_u := c.toUpper
      let name :=
        if code_u == "RUS" then "RUSSIA"
        else if code_u == "USA" then "USA"
        else if code_u == "ARE" then "UAE"
        else if code_u == "GBR" then "UK"
        else code_u
      if name == "RUSSIA" then "RUSSIA, Moscow" else name

/-- The contract-number retry loop of `generate_package` (`main.py` lines
119-125), counting down the remaining attempts of `range(15)`; `rand i` is
the entropy of the i-th `generate_contract_number()` call, and `existing`
the set of contract numbers already present in `packages`. -/
def allocate_contract_number_go (existing : List String) (rand : Nat → Nat)
    (year : Nat) : Nat → Nat → Option String
  | _, 0 => none
  | i, fuel + 1 =>
    let candidate := generate_contract_number (rand i) year
    if existing.contains candidate then
      allocate_contract_number_go existing rand year (i + 1) fuel
    else
      some candidate

/-- The whole allocation: at most 15 candidates are tried. -/
def allocate_contract_number (existing : List String) (rand : Nat → Nat)
    (year : Nat) : Option String :=
  allocate_contract_number_go existing rand year 0 15

/-- Request body `schemas.GenerateClientIn`. -/
structure GenerateClientIn where
  full_name : String
  passport_no : String
  dob : Nat
  mrz_line1 : Option String
  mrz_line2 : Option String
  issuing_country : Option String
deriving DecidableEq, Repr

/-- Request body `schemas.GenerateJobIn`. -/
structure GenerateJobIn where
  position : String
  salary_rub : Rat
  currency : Currency
  fx_source : FxSource
  fx_rate : Option Rat
deriving DecidableEq, Repr

/-- Request body `schemas.GenerateTemplatesIn` (the two selectors stored on
the package). -/
structure GenerateTemplatesIn where
  contract_template : String
  insurance_template : String
deriving DecidableEq, Repr

/-- Request body `schemas.GeneratePackageIn`. -/
structure GeneratePackageIn where
  client : GenerateClientIn
  company_id : String
  job : GenerateJobIn
  templates : GenerateTemplatesIn
deriving DecidableEq, Repr

/-- The MRZ join of `main.py` line 69:
`"\n".join([ln for ln in [l1, l2] if ln and ln.strip()]) or None`. -/
def joinMrz (l1 l2 : Option String) : Option String :=
  let lines := (([l1, l2].filterMap id).filter (fun ln => ln.trim != ""))
  let joined := String.intercalate "\n" lines
  if joined == "" then none else some joined

/-- The client upsert of `main.py` lines 93-112, keyed on
`(passport_no, dob)`: insert a fresh row or update `full_name`, `mrz`,
`issuing_country` on the existing one.  Returns the new table and the id of
the row the package will reference. -/
def upsertClient (clients : List Client) (body : GenerateClientIn)
    (mrz issuing : Option String) (newClientId : String) :
    List Client × String :=
  match clients.find? (fun c =>
      c.passport_no == body.passport_no && c.dob == body.dob) with
  | none =>
    (clients ++ [{ id := newClientId, full_name := body.full_name,
                   passport_no := body.passport_no, dob := body.dob,
                   mrz := mrz, issuing_country := issuing }], newClientId)
  | some c =>
    (clients.map (fun c0 =>
        if c0.id == c.id then
          { c0 with full_name := body.full_name, mrz := mrz,
                    issuing_country := issuing }
        else c0), c.id)

/-- The FX-rate resolution of `main.py` lines 80-91: a manual source
requires a caller-supplied rate (else 400), an external source uses the
outcome of the `_fetch_cbr_rate` network call (failure maps to 502). -/
def resolve_fx (job : GenerateJobIn) (fetchCbr : Except String Rat) :
    Except ApiError Rat :=
  if job.fx_source = FxSource.manual then
    match job.fx_rate with
    | none => .error (.badRequest "fx_rate is required for manual fx")
    | some r => .ok r
  else
    match fetchCbr with
    | .error _ => .error .badGateway
    | .ok r => .ok r

/-- Handler for `POST /packages/generate` (`main.generate_package`).
External effects become parameters: `fetchCbr` is the outcome of
`_fetch_cbr_rate` (a network call), `today`/`dateEntropy` feed the random
start date, `rand`/`year` feed the contract-number candidates, and the
three fresh ids stand for `utils.new_id()` calls.  Validation, FX
resolution, the client upsert (staged in the session) and contract-number
allocation run first; when allocation succeeds the handler then calls
`models.Package(..., version_counter=0, ...)`, which raises `TypeError`
because `version_counter` is not a mapped attribute, so the request ends
in HTTP 500 with the session discarded: this endpoint can never commit a
package or job row. -/
def generate_package (db : DB) (body : GeneratePackageIn)
    (fetchCbr : Except String Rat) (today dateEntropy : Nat)
    (rand : Nat → Nat) (year : Nat)
    (newClientId newPackageId newJobId : String) :
    Except ApiError (DB × String × String) :=
  match db.findCompany body.company_id with
  | none => .error (.badRequest "company_id not found")
  | some company =>
    let mrz := joinMrz body.client.mrz_line1 body.client.mrz_line2
    let issuing0 := body.client.issuing_country
    let issuing :=
      if strFalsy issuing0 then
        match mrz with
        | some m => issuing_country_from_mrz m
        | none => issuing0
      else issuing0
    let country_display := country_display_from_issuing issuing
    let address := "RUSSIA, Moscow, 119087, Akademik Tupolev str.14 apt.430"
    match resolve_fx body.job fetchCbr with
    | .error e => .error e
    | .ok fx_rate =>
      let clients' :=
        (upsertClient db.clients body.client mrz issuing newClientId).1
      let client_id :=
        (upsertClient db.clients body.client mrz issuing newClientId).2
      let start_date := random_start_date_within_last_6_months today dateEntropy
      let contract_start_date := start_date
      match allocate_contract_number
          (db.packages.map (fun p => p.contract_number)) rand year with
      | none => .error (.internalError "Failed to allocate unique contract number")
      | some contract_number =>
        -- models.Package(..., version_counter=0, ...) (main.py line 129)
        -- raises TypeError on the unmapped keyword argument before any row
        -- is built; the staged client upsert is rolled back with the
        -- session and the bound values above are computed and lost.
        .error (.internalError
          "TypeError: version_counter is an invalid keyword argument for Package")

/-- The ledger state observed after a `generate_package` call: committed
state on success, the untouched ledger when the request was rejected. -/
def postStateGen (db : DB) : Except ApiError (DB × String × String) → DB
  | .ok r => r.1
  | .error _ => db

/-- The ledger state observed after a `regenerate_package` call. -/
def postStateRegen (db : DB) :
    Except ApiError (DB × String × String × Nat) → DB
  | .ok r => r.1
  | .error _ => db

/-- Handler for `POST /packages/{package_id}/regenerate`
(`main.regenerate_package`): 404 on a missing package.  Otherwise the
source computes `next_version = int(getattr(pkg, "version_counter", 0)) + 1`,
which is always `0 + 1 = 1` because `version_counter` is not a mapped
attribute of `models.Package`; the assignment `pkg.version_counter =
next_version` only sets a transient attribute; and `models.Job(...,
version=next_version, started_at=None, finished_at=None)` raises
`TypeError` on the unmapped keyword arguments.  The request therefore ends
in HTTP 500 with nothing committed: no job row is created and the counter
column is never changed.  `newJobId` stands for the `utils.new_id()` value
evaluated for the doomed constructor call. -/
def regenerate_package (db : DB) (package_id : String) (newJobId : String) :
    Except ApiError (DB × String × String × Nat) :=
  match db.findPackage package_id with
  | none => .error .notFound
  | some _pkg =>
    .error (.internalError
      "TypeError: version is an invalid keyword argument for Job")

/-- A file item that passes the shape checks of the completion loop: the
three required fields are present and non-empty and the document type is a
known enum value. -/
def FileItem.wellFormed (f : FileItem) : Prop :=
  strFalsy f.doc_type = false ∧ strFalsy f.storage_key = false ∧
    strFalsy f.filename = false ∧
    (DocumentType.ofString (f.doc_type.getD "")).isSome = true

/-- A file item whose declared version (if any) agrees with the expected
version the completion handler compares against. -/
def FileItem.versionOk (expected : Nat) (f : FileItem) : Prop :=
  ∀ v, f.version = some v → v = (expected : Int)

instance (f : FileItem) : Decidable f.wellFormed := by
  unfold FileItem.wellFormed
  infer_instance

/-! Helper lemmas about row lookup after the in-place updates and inserts
the handlers perform. -/

theorem find?_map_ite {α : Type} (l : List α) (idf : α → String) (key : String)
    (f : α → α) (hf : ∀ a, idf (f a) = idf a) :
    (l.map (fun a => if idf a == key then f a else a)).find?
        (fun a => idf a == key)
      = (l.find? (fun a => idf a == key)).map f := by
  induction l with
  | nil => rfl
  | cons a rest ih =>
    simp only [List.map_cons]
    by_cases h : idf a = key
    · have hb : (idf a == key) = true := by simp [h]
      have hfb : (idf (f a) == key) = true := by simp [hf a, h]
      rw [if_pos hb]
      simp only [List.find?, hb, hfb]
      rfl
    · have hb : (idf a == key) = false := by simp [h]
      rw [if_neg (by simp [h])]
      simp only [List.find?, hb]
      exact ih

theorem find?_append_of_none {α : Type} (p : α → Bool) (l1 l2 : List α)
    (h : l1.find? p = none) : (l1 ++ l2).find? p = l2.find? p := by
  induction l1 with
  | nil => rfl
  | cons a rest ih =>
    cases hb : p a with
    | true => simp [List.find?, hb] at h
    | false =>
      rw [List.cons_append]
      simp only [List.find?, hb] at h ⊢
      exact ih h

theorem findJob_updateJob (jobs : List Job) (job_id : String) (f : Job → Job)
    (hf : ∀ j, (f j).id = j.id) :
    (updateJob jobs job_id f).find? (fun j => j.id == job_id)
      = (jobs.find? (fun j => j.id == job_id)).map f :=
  find?_map_ite jobs Job.id job_id f hf

theorem findPackage_updatePackage (packages : List Package)
    (package_id : String) (f : Package → Package)
    (hf : ∀ p, (f p).id = p.id) :
    (updatePackage packages package_id f).find? (fun p => p.id == package_id)
      = (packages.find? (fun p => p.id == package_id)).map f :=
  find?_map_ite packages Package.id package_id f hf

theorem find?_append_singleton {α : Type} (p : α → Bool) (l : List α) (a : α)
    (h : l.find? p = none) (ha : p a = true) :
    (l ++ [a]).find? p = some a := by
  rw [find?_append_of_none p l [a] h]
  simp [List.find?, ha]

theorem buildDocuments_ok_spec (newId : Nat → String) (pkg_id : String)
    (expected : Nat) :
    ∀ (i : Nat) (files : List FileItem) (docs : List Document),
      buildDocuments newId pkg_id expected i files = .ok docs →
      docs.length = files.length ∧
        ∀ d ∈ docs, d.package_id = pkg_id ∧ d.version = expected := by
  intro i files
  induction files generalizing i with
  | nil =>
    intro docs h
    simp only [buildDocuments] at h
    cases h
    simp
  | cons f rest ih =>
    intro docs h
    simp only [buildDocuments] at h
    split at h
    · simp at h
    · split at h
      · simp at h
      · split at h
        · simp at h
        · split at h
          · simp at h
          · rename_i docs' hrec
            cases h
            obtain ⟨hlen, hmem⟩ := ih (i + 1) docs' hrec
            constructor
            · simp [hlen]
            · intro d hd
              rcases List.mem_cons.mp hd with h1 | h2
              · subst h1; exact ⟨rfl, rfl⟩
              · exact hmem d h2

theorem buildDocuments_error_badRequest (newId : Nat → String)
    (pkg_id : String) (expected : Nat) :
    ∀ (i : Nat) (files : List FileItem) (e : ApiError),
      buildDocuments newId pkg_id expected i files = .error e →
      ∃ s, e = ApiError.badRequest s := by
  intro i files
  induction files generalizing i with
  | nil =>
    intro e h
    simp only [buildDocuments] at h
    simp at h
  | cons f rest ih =>
    intro e h
    simp only [buildDocuments] at h
    split at h
    · cases h; exact ⟨_, rfl⟩
    · split at h
      · cases h; exact ⟨_, rfl⟩
      · split at h
        · cases h; exact ⟨_, rfl⟩
        · split at h
          · rename_i e2 hrec
            cases h
            exact ih (i + 1) _ hrec
          · simp at h

theorem buildDocuments_ok_of_valid (newId : Nat → String) (pkg_id : String)
    (expected : Nat) :
    ∀ (i : Nat) (files : List FileItem),
      (∀ f ∈ files, f.wellFormed ∧ f.versionOk expected) →
      ∃ docs, buildDocuments newId pkg_id expected i files = .ok docs := by
  intro i files
  induction files generalizing i with
  | nil => exact fun _ => ⟨[], rfl⟩
  | cons f rest ih =>
    intro hval
    obtain ⟨⟨h1, h2, h3, h4⟩, h5⟩ := hval f (List.mem_cons_self f rest)
    obtain ⟨docs, hdocs⟩ :=
      ih (i + 1) (fun g hg => hval g (List.mem_cons_of_mem f hg))
    have hfal :
        (strFalsy f.doc_type || strFalsy f.storage_key || strFalsy f.filename)
          = false := by
      simp [h1, h2, h3]
    obtain ⟨dt, hdt⟩ := Option.isSome_iff_exists.mp h4
    have hver : (match f.version with
        | some v => v != (expected : Int)
        | none => false) = false := by
      cases hv : f.version with
      | none => rfl
      | some v =>
        have := h5 v hv
        simp [this]
    refine ⟨{ id := newId i, package_id := pkg_id, doc_type := dt,
              version := expected, filename := f.filename.getD "",
              storage_key := f.storage_key.getD "",
              content_type := contentTypeOrDefault f.content_type } :: docs, ?_⟩
    simp only [buildDocuments, hfal, Bool.false_eq_true, if_false, hdt, hver,
      hdocs]

theorem buildDocuments_version_mismatch (newId : Nat → String)
    (pkg_id : String) (expected : Nat) :
    ∀ (i : Nat) (files : List FileItem),
      (∀ f ∈ files, f.wellFormed) →
      (∃ f ∈ files, ∃ v, f.version = some v ∧ v ≠ (expected : Int)) →
      buildDocuments newId pkg_id expected i files
        = .error (.badRequest "version mismatch") := by
  intro i files
  induction files generalizing i with
  | nil =>
    intro _ hbad
    simp at hbad
  | cons f rest ih =>
    intro hwf hbad
    obtain ⟨h1, h2, h3, h4⟩ := hwf f (List.mem_cons_self f rest)
    have hfal :
        (strFalsy f.doc_type || strFalsy f.storage_key || strFalsy f.filename)
          = false := by
      simp [h1, h2, h3]
    obtain ⟨dt, hdt⟩ := Option.isSome_iff_exists.mp h4
    by_cases hmis : (match f.version with
        | some v => v != (expected : Int)
        | none => false) = true
    · simp only [buildDocuments, hfal, Bool.false_eq_true, if_false, hdt,
        hmis, if_true]
    · have hrest : ∃ g ∈ rest, ∃ v, g.version = some v ∧ v ≠ (expected : Int) := by
        rcases hbad with ⟨g, hg, v, hv, hne⟩
        rcases List.mem_cons.mp hg with rfl | hgr
        · exfalso
          apply hmis
          rw [hv]
          simpa using hne
        · exact ⟨g, hgr, v, hv, hne⟩
      have hrec := ih (i + 1) (fun g hg => hwf g (List.mem_cons_of_mem f hg))
        hrest
      simp only [buildDocuments, hfal, Bool.false_eq_true, if_false, hdt,
        hmis, hrec]

/-! Concrete fixtures used by the witnesses below. -/

/-- A sample package row (mapped columns only). -/
def samplePackage : Package :=
  { id := "p1", status := PackageStatus.created,
    client_id := "c1", company_id := "co1", currency := Currency.USD,
    fx_source := FxSource.manual, fx_rate := 90, salary_rub := 100000,
    position := "engineer", start_date := 10, contract_start_date := 10,
    contract_number := "123456/2026", contract_template := "t1",
    insurance_template := "t2", country_display := "RUSSIA, Moscow",
    address := "addr" }

/-- A sample job row for `samplePackage`, already started (mapped columns
only). -/
def sampleRunningJob : Job :=
  { id := "j1", package_id := "p1", status := JobStatus.running,
    error_message := none }

/-- A ledger with one package and one running job. -/
def sampleDB : DB :=
  { clients := [], companies := [], packages := [samplePackage],
    jobs := [sampleRunningJob], documents := [] }

/-- A deterministic id supply for witnesses. -/
def sampleNewId (i : Nat) : String := "doc" ++ toString i

/-- A valid completion artifact for version 1. -/
def sampleFile : FileItem :=
  { doc_type := some "contract", storage_key := some "k1",
    filename := some "f1.pdf", content_type := none, version := some 1 }

/-- The state-machine guard contract of the three internal endpoints for one
job row: `start` commits exactly when the job is queued, `fail` exactly when
it is running, `complete` only when it is running; a guard violation is the
Conflict answer and the only source of Conflict, and a rejected call leaves
the ledger untouched. -/
def TransitionGuardSpec (db : DB) (now : Nat) (newId : Nat → String)
    (job_id : String) (job : Job) (msg : List Char)
    (files : List FileItem) : Prop :=
  (succeeds (internal_job_start db now job_id) ↔
    job.status = JobStatus.queued)
  ∧ (internal_job_start db now job_id = .error .conflict ↔
      job.status ≠ JobStatus.queued)
  ∧ (succeeds (internal_job_fail db now job_id msg) ↔
      job.status = JobStatus.running)
  ∧ (internal_job_fail db now job_id msg = .error .conflict ↔
      job.status ≠ JobStatus.running)
  ∧ (succeeds (internal_job_complete db now newId job_id files) →
      job.status = JobStatus.running)
  ∧ (internal_job_complete db now newId job_id files = .error .conflict ↔
      job.status ≠ JobStatus.running)
  ∧ (job.status ≠ JobStatus.queued →
      postState db (internal_job_start db now job_id) = db)
  ∧ (job.status ≠ JobStatus.running →
      postState db (internal_job_fail db now job_id msg) = db
      ∧ postState db (internal_job_complete db now newId job_id files) = db)

/-- C1: the internal `start` endpoint succeeds iff the job is queued,
`complete`/`fail` succeed only from `running`, every guard violation is
rejected with Conflict (HTTP 409), and a rejected invocation leaves the job
and its package unchanged. -/
theorem C1_transition_guards (db : DB) (now : Nat) (newId : Nat → String)
    (job_id : String) (job : Job) (pkg : Package) (msg : List Char)
    (files : List FileItem)
    (hfind : db.findJob job_id = some job)
    (hpkg : db.findPackage job.package_id = some pkg) :
    TransitionGuardSpec db now newId job_id job msg files := by
  have hstart_pos : job.status = JobStatus.queued →
      succeeds (internal_job_start db now job_id) := by
    intro hq
    simp [succeeds, internal_job_start, hfind, hq]
  have hstart_neg : job.status ≠ JobStatus.queued →
      internal_job_start db now job_id = .error .conflict := by
    intro hq
    simp [internal_job_start, hfind, hq]
  have hfail_pos : job.status = JobStatus.running →
      succeeds (internal_job_fail db now job_id msg) := by
    intro hr
    simp [succeeds, internal_job_fail, hfind, hr, hpkg]
  have hfail_neg : job.status ≠ JobStatus.running →
      internal_job_fail db now job_id msg = .error .conflict := by
    intro hr
    simp [internal_job_fail, hfind, hr]
  have hcomp_neg : job.status ≠ JobStatus.running →
      internal_job_complete db now newId job_id files = .error .conflict := by
    intro hr
    simp [internal_job_complete, hfind, hr]
  have hcomp_no_conflict : job.status = JobStatus.running →
      internal_job_complete db now newId job_id files ≠ .error .conflict := by
    intro hr hcon
    simp only [internal_job_complete, hfind, hr, if_true, hpkg] at hcon
    split at hcon
    · rename_i e hrec
      cases hcon
      obtain ⟨s, hs⟩ := buildDocuments_error_badRequest newId pkg.id
        1 0 files _ hrec
      cases hs
    · split at hcon
      · simp at hcon
      · simp at hcon
  refine ⟨?_, ?_, ?_, ?_, ?_, ?_, ?_, ?_⟩
  · constructor
    · rintro ⟨db', hdb⟩
      by_contra hq
      rw [hstart_neg hq] at hdb
      simp at hdb
    · exact hstart_pos
  · constructor
    · intro hcon hq
      obtain ⟨db', hdb⟩ := hstart_pos hq
      rw [hdb] at hcon
      simp at hcon
    · exact hstart_neg
  · constructor
    · rintro ⟨db', hdb⟩
      by_contra hr
      rw [hfail_neg hr] at hdb
      simp at hdb
    · exact hfail_pos
  · constructor
    · intro hcon hr
      obtain ⟨db', hdb⟩ := hfail_pos hr
      rw [hdb] at hcon
      simp at hcon
    · exact hfail_neg
  · rintro ⟨db', hdb⟩
    by_contra hr
    rw [hcomp_neg hr] at hdb
    simp at hdb
  · constructor
    · intro hcon hr
      exact hcomp_no_conflict hr hcon
    · exact hcomp_neg
  · intro hq
    rw [hstart_neg hq]
    rfl
  · intro hr
    rw [hfail_neg hr, hcomp_neg hr]
    exact ⟨rfl, rfl⟩

/-- Witness for C1 at a concrete running job. -/
theorem C1_transition_guards_witness :
    sampleDB.findJob "j1" = some sampleRunningJob ∧
    sampleDB.findPackage sampleRunningJob.package_id = some samplePackage ∧
    TransitionGuardSpec sampleDB 0 sampleNewId "j1" sampleRunningJob
      ['x'] [sampleFile] :=
  ⟨rfl, rfl,
    C1_transition_guards sampleDB 0 sampleNewId "j1" sampleRunningJob
      samplePackage ['x'] [sampleFile] rfl rfl⟩

/-- A sample company row. -/
def sampleCompany : Company :=
  { id := "co1", name := "Acme", seal_key := "s", logo_key := "l",
    director_sign_key := "d", client_sign_key := "c" }

/-- A sample generation request with a manual FX rate. -/
def sampleGenBody : GeneratePackageIn :=
  { client := { full_name := "Ivan", passport_no := "123", dob := 1,
                mrz_line1 := none, mrz_line2 := none,
                issuing_country := none },
    company_id := "co1",
    job := { position := "engineer", salary_rub := 100000,
             currency := Currency.USD, fx_source := FxSource.manual,
             fx_rate := some 90 },
    templates := { contract_template := "t1", insurance_template := "t2" } }

/-- An empty ledger holding only the sample company. -/
def genDB : DB :=
  { clients := [], companies := [sampleCompany], packages := [], jobs := [],
    documents := [] }

/-- C2 (behaviour the code actually has, refuting the claim): with a
valid request the generation endpoint crashes at `models.Package(...,
version_counter=0, ...)` and the regeneration endpoint at
`models.Job(..., version=..., started_at=..., finished_at=...)` — both
`TypeError`s on constructor keyword arguments that `models.py` does not
map — so the version counter is never set to 1 (nor incremented) and no
queued job with an allocated version is ever created: both requests end in
HTTP 500 with the ledger untouched. -/
theorem C2_version_counter_never_allocated
    (db : DB) (body : GeneratePackageIn) (fetchCbr : Except String Rat)
    (today dateEntropy : Nat) (rand : Nat → Nat) (year : Nat)
    (cid pid jid : String) (company : Company) (fx : Rat) (cn : String)
    (hco : db.findCompany body.company_id = some company)
    (hfx : resolve_fx body.job fetchCbr = .ok fx)
    (halloc : allocate_contract_number
      (db.packages.map (fun p => p.contract_number)) rand year = some cn)
    (db2 : DB) (pid2 jid2 : String) (pkg2 : Package)
    (hfind2 : db2.findPackage pid2 = some pkg2) :
    generate_package db body fetchCbr today dateEntropy rand year cid pid
        jid
      = .error (.internalError
        "TypeError: version_counter is an invalid keyword argument for Package")
    ∧ postStateGen db (generate_package db body fetchCbr today dateEntropy
        rand year cid pid jid) = db
    ∧ regenerate_package db2 pid2 jid2
      = .error (.internalError
        "TypeError: version is an invalid keyword argument for Job")
    ∧ postStateRegen db2 (regenerate_package db2 pid2 jid2) = db2 := by
  have h1 : generate_package db body fetchCbr today dateEntropy rand year
      cid pid jid
      = .error (.internalError
        "TypeError: version_counter is an invalid keyword argument for Package") := by
    simp only [generate_package, hco, hfx, halloc]
  have h2 : regenerate_package db2 pid2 jid2
      = .error (.internalError
        "TypeError: version is an invalid keyword argument for Job") := by
    simp only [regenerate_package, hfind2]
  exact ⟨h1, by rw [h1]; rfl, h2, by rw [h2]; rfl⟩

/-- Witness for C2: a valid generation request on `genDB` and a
regeneration of `sampleDB`'s package both end in the TypeError 500. -/
theorem C2_version_counter_never_allocated_witness :
    genDB.findCompany sampleGenBody.company_id = some sampleCompany ∧
    resolve_fx sampleGenBody.job (.ok 80) = .ok 90 ∧
    allocate_contract_number
      (genDB.packages.map (fun p => p.contract_number)) (fun _ => 0) 2026
      = some "100000/2026" ∧
    sampleDB.findPackage "p1" = some samplePackage ∧
    (generate_package genDB sampleGenBody (.ok 80) 100 0 (fun _ => 0) 2026
        "c9" "p9" "j9"
      = .error (.internalError
        "TypeError: version_counter is an invalid keyword argument for Package")
    ∧ postStateGen genDB (generate_package genDB sampleGenBody (.ok 80) 100
        0 (fun _ => 0) 2026 "c9" "p9" "j9") = genDB
    ∧ regenerate_package sampleDB "p1" "j9"
      = .error (.internalError
        "TypeError: version is an invalid keyword argument for Job")
    ∧ postStateRegen sampleDB (regenerate_package sampleDB "p1" "j9")
        = sampleDB) :=
  ⟨rfl, rfl, rfl, rfl,
    C2_version_counter_never_allocated genDB sampleGenBody (.ok 80) 100 0
      (fun _ => 0) 2026 "c9" "p9" "j9" sampleCompany 90 "100000/2026"
      rfl rfl rfl sampleDB "p1" "j9" samplePackage rfl⟩

/-- C3 (behaviour the code actually has, refuting the claim): a committed
completion does append exactly one Document row per submitted artifact,
set the job to done and the package to generated in one transaction — but
every Document carries the constant version 1, the value of
`int(getattr(job, "version", 1))` on the unmapped `models.Job.version`,
not an allocated version; and the committed job row consists of the mapped
columns only, so no `finished_at` is ever stored (the source's
`job.finished_at = func.now()` is a transient attribute write). -/
theorem C3_complete_constant_version
    (db : DB) (now : Nat) (newId : Nat → String) (job_id : String)
    (job : Job) (pkg : Package) (files : List FileItem) (db' : DB)
    (hfind : db.findJob job_id = some job)
    (hrun : job.status = JobStatus.running)
    (hpkg : db.findPackage job.package_id = some pkg)
    (hok : internal_job_complete db now newId job_id files = .ok db') :
    (∃ newDocs, db'.documents = db.documents ++ newDocs
      ∧ newDocs.length = files.length
      ∧ ∀ d ∈ newDocs, d.package_id = pkg.id ∧ d.version = 1)
    ∧ db'.findJob job_id = some { job with
        status := JobStatus.done,
        error_message := none }
    ∧ db'.findPackage job.package_id = some { pkg with
        status := PackageStatus.generated } := by
  simp only [internal_job_complete, hfind, hrun, if_true, hpkg] at hok
  split at hok
  · simp at hok
  · rename_i newDocs hdocs
    split at hok
    · cases hok
      refine ⟨⟨newDocs, rfl, ?_, ?_⟩, ?_, ?_⟩
      · exact (buildDocuments_ok_spec newId pkg.id 1 0 files
          newDocs hdocs).1
      · exact (buildDocuments_ok_spec newId pkg.id 1 0 files
          newDocs hdocs).2
      · show DB.findJob _ job_id = _
        simp only [DB.findJob]
        rw [findJob_updateJob db.jobs job_id
          (fun j => { j with status := JobStatus.done,
                             error_message := none }) (fun j => rfl)]
        simp only [DB.findJob] at hfind
        rw [hfind]
        rfl
      · show DB.findPackage _ job.package_id = _
        simp only [DB.findPackage]
        rw [findPackage_updatePackage db.packages job.package_id
          (fun p => { p with status := PackageStatus.generated })
          (fun p => rfl)]
        simp only [DB.findPackage] at hpkg
        rw [hpkg]
        rfl
    · simp at hok

/-- The ledger after completing `sampleDB`'s running job with
`sampleFile`. -/
def completedSampleDB : DB :=
  { clients := [], companies := [],
    packages := [{ samplePackage with status := PackageStatus.generated }],
    jobs := [{ sampleRunningJob with
                status := JobStatus.done,
                error_message := none }],
    documents := [{ id := "doc0", package_id := "p1",
                    doc_type := DocumentType.contract, version := 1,
                    filename := "f1.pdf", storage_key := "k1",
                    content_type := "application/octet-stream" }] }

/-- Witness for C3 at the concrete completion of `sampleDB`. -/
theorem C3_complete_constant_version_witness :
    sampleDB.findJob "j1" = some sampleRunningJob ∧
    sampleRunningJob.status = JobStatus.running ∧
    sampleDB.findPackage sampleRunningJob.package_id = some samplePackage ∧
    internal_job_complete sampleDB 99 sampleNewId "j1" [sampleFile]
      = .ok completedSampleDB ∧
    ((∃ newDocs,
        completedSampleDB.documents = sampleDB.documents ++ newDocs
        ∧ newDocs.length = [sampleFile].length
        ∧ ∀ d ∈ newDocs, d.package_id = samplePackage.id ∧ d.version = 1)
      ∧ completedSampleDB.findJob "j1" = some { sampleRunningJob with
          status := JobStatus.done,
          error_message := none }
      ∧ completedSampleDB.findPackage sampleRunningJob.package_id
          = some { samplePackage with status := PackageStatus.generated }) :=
  ⟨rfl, rfl, rfl, rfl,
    C3_complete_constant_version sampleDB 99 sampleNewId "j1"
      sampleRunningJob samplePackage [sampleFile] completedSampleDB
      rfl rfl rfl rfl⟩

/-- An artifact declaring version 2 where the handler's expected version
is the constant 1. -/
def badVersionFile : FileItem :=
  { doc_type := some "bank", storage_key := some "k2",
    filename := some "f2.pdf", content_type := some "", version := some 2 }

/-- C4 (behaviour the code actually has, refuting the claim): the
completion loop compares every declared artifact version against the
constant 1 — `int(getattr(job, "version", 1))` on the unmapped
`models.Job.version` — never against an allocated version of the job.  A
declared version other than 1 aborts the whole call with the 400 version
mismatch error before commit (nothing recorded, including artifacts
preceding the mismatching one; job and package untouched), while a list
whose declared versions are all 1 is never rejected with that error,
whatever version the spec would regard as allocated. -/
theorem C4_version_checked_against_constant_one
    (db : DB) (now : Nat) (newId : Nat → String) (job_id : String)
    (job : Job) (pkg : Package) (files : List FileItem)
    (hfind : db.findJob job_id = some job)
    (hrun : job.status = JobStatus.running)
    (hpkg : db.findPackage job.package_id = some pkg)
    (hwf : ∀ f ∈ files, f.wellFormed)
    (hbad : ∃ f ∈ files, ∃ v, f.version = some v ∧ v ≠ (1 : Int)) :
    internal_job_complete db now newId job_id files
        = .error (.badRequest "version mismatch")
    ∧ postState db (internal_job_complete db now newId job_id files) = db
    ∧ ∀ (files2 : List FileItem),
        (∀ f ∈ files2, f.wellFormed ∧ f.versionOk 1) →
        internal_job_complete db now newId job_id files2
          ≠ .error (.badRequest "version mismatch") := by
  have hmis := buildDocuments_version_mismatch newId pkg.id 1 0
    files hwf hbad
  have h1 : internal_job_complete db now newId job_id files
      = .error (.badRequest "version mismatch") := by
    simp only [internal_job_complete, hfind, hrun, if_true, hpkg, hmis]
  refine ⟨h1, by rw [h1]; rfl, ?_⟩
  intro files2 hval hcon
  obtain ⟨docs, hdocs⟩ :=
    buildDocuments_ok_of_valid newId pkg.id 1 0 files2 hval
  simp only [internal_job_complete, hfind, hrun, if_true, hpkg, hdocs]
    at hcon
  split at hcon
  · simp at hcon
  · simp at hcon

/-- Witness for C4: a well-formed artifact list whose second item declares
version 2 is rejected; the same job accepts lists declaring only
version 1. -/
theorem C4_version_checked_against_constant_one_witness :
    sampleDB.findJob "j1" = some sampleRunningJob ∧
    sampleRunningJob.status = JobStatus.running ∧
    sampleDB.findPackage sampleRunningJob.package_id = some samplePackage ∧
    (∀ f ∈ [sampleFile, badVersionFile], f.wellFormed) ∧
    (∃ f ∈ [sampleFile, badVersionFile], ∃ v, f.version = some v
      ∧ v ≠ (1 : Int)) ∧
    (internal_job_complete sampleDB 99 sampleNewId "j1"
        [sampleFile, badVersionFile]
        = .error (.badRequest "version mismatch")
      ∧ postState sampleDB (internal_job_complete sampleDB 99 sampleNewId
          "j1" [sampleFile, badVersionFile]) = sampleDB
      ∧ ∀ (files2 : List FileItem),
          (∀ f ∈ files2, f.wellFormed ∧ f.versionOk 1) →
          internal_job_complete sampleDB 99 sampleNewId "j1" files2
            ≠ .error (.badRequest "version mismatch")) :=
  ⟨rfl, rfl, rfl, by decide,
    ⟨badVersionFile, by decide, 2, rfl, by decide⟩,
    C4_version_checked_against_constant_one sampleDB 99 sampleNewId "j1"
      sampleRunningJob samplePackage [sampleFile, badVersionFile]
      rfl rfl rfl (by decide)
      ⟨badVersionFile, by decide, 2, rfl, by decide⟩⟩

/-- C6 (behaviour the code actually has, refuting the claim): failing a
running job persists the error status, exactly the first 2000 characters
of the message (stored length `min (length msg) 2000`) and the package
error status — but no finish timestamp: `models.Job` has no mapped
`finished_at`, so the source's `job.finished_at = func.now()` writes a
transient attribute and the committed jobs row never stores it. -/
theorem C6_fail_truncates_without_timestamp
    (db : DB) (now : Nat) (job_id : String) (job : Job) (pkg : Package)
    (msg : List Char)
    (hfind : db.findJob job_id = some job)
    (hrun : job.status = JobStatus.running)
    (hpkg : db.findPackage job.package_id = some pkg) :
    ∃ db', internal_job_fail db now job_id msg = .ok db'
      ∧ db'.findJob job_id = some { job with
          status := JobStatus.error,
          error_message := some (msg.take 2000) }
      ∧ (msg.take 2000).length = min msg.length 2000
      ∧ db'.findPackage job.package_id = some { pkg with
          status := PackageStatus.error } := by
  simp only [internal_job_fail, hfind, hrun, if_true, hpkg]
  refine ⟨_, rfl, ?_, ?_, ?_⟩
  · show DB.findJob _ job_id = _
    simp only [DB.findJob]
    rw [findJob_updateJob db.jobs job_id
      (fun j => { j with status := JobStatus.error,
                         error_message := some (msg.take 2000) })
      (fun j => rfl)]
    simp only [DB.findJob] at hfind
    rw [hfind]
    rfl
  · rw [List.length_take, Nat.min_comm]
  · show DB.findPackage _ job.package_id = _
    simp only [DB.findPackage]
    rw [findPackage_updatePackage db.packages job.package_id
      (fun p => { p with status := PackageStatus.error }) (fun p => rfl)]
    simp only [DB.findPackage] at hpkg
    rw [hpkg]
    rfl

/-- Witness for C6: failing the sample running job with a 5000-character
message stores exactly 2000 characters. -/
theorem C6_fail_truncates_without_timestamp_witness :
    sampleDB.findJob "j1" = some sampleRunningJob ∧
    sampleRunningJob.status = JobStatus.running ∧
    sampleDB.findPackage sampleRunningJob.package_id = some samplePackage ∧
    (∃ db', internal_job_fail sampleDB 99 "j1" (List.replicate 5000 'x')
        = .ok db'
      ∧ db'.findJob "j1" = some { sampleRunningJob with
          status := JobStatus.error,
          error_message := some ((List.replicate 5000 'x').take 2000) }
      ∧ ((List.replicate 5000 'x').take 2000).length
          = min (List.replicate 5000 'x').length 2000
      ∧ db'.findPackage sampleRunningJob.package_id
          = some { samplePackage with status := PackageStatus.error }) :=
  ⟨rfl, rfl, rfl,
    C6_fail_truncates_without_timestamp sampleDB 99 "j1" sampleRunningJob
      samplePackage (List.replicate 5000 'x') rfl rfl rfl⟩

/-- C10: completing a running job with an empty artifacts list is accepted
— nothing checks that any expected document type was delivered: the job
becomes done, the package becomes generated, and no Document row is
created. -/
theorem C10_empty_completion
    (db : DB) (now : Nat) (newId : Nat → String) (job_id : String)
    (job : Job) (pkg : Package)
    (hfind : db.findJob job_id = some job)
    (hrun : job.status = JobStatus.running)
    (hpkg : db.findPackage job.package_id = some pkg)
    (hnodup : (db.documents.map docKey).Nodup) :
    ∃ db', internal_job_complete db now newId job_id [] = .ok db'
      ∧ db'.documents = db.documents
      ∧ db'.findJob job_id = some { job with
          status := JobStatus.done,
          error_message := none }
      ∧ db'.findPackage job.package_id = some { pkg with
          status := PackageStatus.generated } := by
  simp only [internal_job_complete, hfind, hrun, if_true, hpkg,
    buildDocuments, List.append_nil]
  rw [if_pos hnodup]
  refine ⟨_, rfl, rfl, ?_, ?_⟩
  · show DB.findJob _ job_id = _
    simp only [DB.findJob]
    rw [findJob_updateJob db.jobs job_id
      (fun j => { j with status := JobStatus.done, error_message := none })
      (fun j => rfl)]
    simp only [DB.findJob] at hfind
    rw [hfind]
    rfl
  · show DB.findPackage _ job.package_id = _
    simp only [DB.findPackage]
    rw [findPackage_updatePackage db.packages job.package_id
      (fun p => { p with status := PackageStatus.generated })
      (fun p => rfl)]
    simp only [DB.findPackage] at hpkg
    rw [hpkg]
    rfl

/-- Witness for C10: the sample running job completed with zero
artifacts. -/
theorem C10_empty_completion_witness :
    sampleDB.findJob "j1" = some sampleRunningJob ∧
    sampleRunningJob.status = JobStatus.running ∧
    sampleDB.findPackage sampleRunningJob.package_id = some samplePackage ∧
    (sampleDB.documents.map docKey).Nodup ∧
    (∃ db', internal_job_complete sampleDB 99 sampleNewId "j1" [] = .ok db'
      ∧ db'.documents = sampleDB.documents
      ∧ db'.findJob "j1" = some { sampleRunningJob with
          status := JobStatus.done,
          error_message := none }
      ∧ db'.findPackage sampleRunningJob.package_id
          = some { samplePackage with
                    status := PackageStatus.generated }) :=
  ⟨rfl, rfl, rfl, by decide,
    C10_empty_completion sampleDB 99 sampleNewId "j1" sampleRunningJob
      samplePackage rfl rfl rfl (by decide)⟩

/-- C5: (package_id, doc_type, version) stays unique over Document rows —
every committed completion re-establishes the no-duplicate invariant of
`uq_documents_pkg_type_ver` — and a completion whose staged artifacts
(carrying the handler's expected version, the constant 1) collide on that
key is rejected as a whole by the constraint at commit time: the caller
gets the ledger integrity error (the uncaught `IntegrityError`, HTTP 500)
and the ledger, including the previously recorded documents, is
untouched. -/
theorem C5_document_uniqueness
    (db : DB) (now : Nat) (newId : Nat → String) (job_id : String)
    (job : Job) (pkg : Package) (files : List FileItem)
    (newDocs : List Document)
    (hfind : db.findJob job_id = some job)
    (hrun : job.status = JobStatus.running)
    (hpkg : db.findPackage job.package_id = some pkg)
    (hdocs : buildDocuments newId pkg.id 1 0 files = .ok newDocs)
    (hdup : ¬ ((db.documents ++ newDocs).map docKey).Nodup) :
    (∀ (db0 : DB) (now0 : Nat) (newId0 : Nat → String) (jid0 : String)
        (files0 : List FileItem) (db0' : DB),
        internal_job_complete db0 now0 newId0 jid0 files0 = .ok db0' →
        (db0'.documents.map docKey).Nodup)
    ∧ internal_job_complete db now newId job_id files
        = .error (.internalError "DB integrity error")
    ∧ postState db (internal_job_complete db now newId job_id files)
        = db := by
  have hrej : internal_job_complete db now newId job_id files
      = .error (.internalError "DB integrity error") := by
    simp only [internal_job_complete, hfind, hrun, if_true, hpkg, hdocs]
    rw [if_neg hdup]
  refine ⟨?_, hrej, by rw [hrej]; rfl⟩
  intro db0 now0 newId0 jid0 files0 db0' h
  simp only [internal_job_complete] at h
  split at h
  · simp at h
  · split at h
    · split at h
      · simp at h
      · split at h
        · simp at h
        · split at h
          · rename_i hnodup0
            cases h
            exact hnodup0
          · simp at h
    · simp at h

/-- The document row staged from `sampleFile` during a completion for
package `p1` (expected version: the constant 1). -/
def dupDoc : Document :=
  { id := "doc0", package_id := "p1", doc_type := DocumentType.contract,
    version := 1, filename := "f1.pdf", storage_key := "k1",
    content_type := "application/octet-stream" }

/-- The ledger after the sample completion, with a second running job for
the same package version: its completion would collide on
`(p1, contract, 1)`. -/
def dupDB : DB :=
  { completedSampleDB with
    jobs := [{ sampleRunningJob with id := "j2" }] }

/-- Witness for C5: re-completing version 1 of `p1` with an overlapping
document type is rejected by the uniqueness constraint. -/
theorem C5_document_uniqueness_witness :
    dupDB.findJob "j2" = some { sampleRunningJob with id := "j2" } ∧
    ({ sampleRunningJob with id := "j2" } : Job).status
      = JobStatus.running ∧
    dupDB.findPackage "p1" = some { samplePackage with
      status := PackageStatus.generated } ∧
    buildDocuments sampleNewId samplePackage.id 1 0 [sampleFile]
      = .ok [dupDoc] ∧
    ¬ ((dupDB.documents ++ [dupDoc]).map docKey).Nodup ∧
    ((∀ (db0 : DB) (now0 : Nat) (newId0 : Nat → String) (jid0 : String)
        (files0 : List FileItem) (db0' : DB),
        internal_job_complete db0 now0 newId0 jid0 files0 = .ok db0' →
        (db0'.documents.map docKey).Nodup)
    ∧ internal_job_complete dupDB 100 sampleNewId "j2" [sampleFile]
        = .error (.internalError "DB integrity error")
    ∧ postState dupDB (internal_job_complete dupDB 100 sampleNewId "j2"
        [sampleFile]) = dupDB) :=
  ⟨rfl, rfl, rfl, rfl, by decide,
    C5_document_uniqueness dupDB 100 sampleNewId "j2"
      { sampleRunningJob with id := "j2" }
      { samplePackage with status := PackageStatus.generated }
      [sampleFile] [dupDoc] rfl rfl rfl rfl (by decide)⟩

theorem allocate_go_ext (existing : List String) (r1 r2 : Nat → Nat)
    (y : Nat) :
    ∀ (fuel i : Nat), (∀ k, k < fuel → r1 (i + k) = r2 (i + k)) →
      allocate_contract_number_go existing r1 y i fuel
        = allocate_contract_number_go existing r2 y i fuel := by
  intro fuel
  induction fuel with
  | zero => intro i _; rfl
  | succ n ih =>
    intro i h
    have h0 : r1 i = r2 i := by
      have := h 0 (Nat.succ_pos n)
      simpa using this
    simp only [allocate_contract_number_go, h0]
    by_cases hc :
        (existing.contains (generate_contract_number (r2 i) y)) = true
    · rw [if_pos hc, if_pos hc]
      exact ih (i + 1) (fun k hk => by
        have := h (k + 1) (by omega)
        simpa [Nat.add_assoc, Nat.add_comm 1 k] using this)
    · rw [if_neg hc, if_neg hc]

theorem allocate_go_some (existing : List String) (r : Nat → Nat) (y : Nat) :
    ∀ (fuel i : Nat) (c : String),
      allocate_contract_number_go existing r y i fuel = some c →
      c ∉ existing ∧ ∃ k, k < fuel
        ∧ c = generate_contract_number (r (i + k)) y := by
  intro fuel
  induction fuel with
  | zero =>
    intro i c h
    simp [allocate_contract_number_go] at h
  | succ n ih =>
    intro i c h
    simp only [allocate_contract_number_go] at h
    by_cases hc :
        (existing.contains (generate_contract_number (r i) y)) = true
    · rw [if_pos hc] at h
      obtain ⟨hnot, k, hk, hck⟩ := ih (i + 1) c h
      refine ⟨hnot, k + 1, by omega, ?_⟩
      rw [hck]
      have : i + 1 + k = i + (k + 1) := by omega
      rw [this]
    · rw [if_neg hc] at h
      cases h
      refine ⟨?_, 0, Nat.succ_pos n, by rw [Nat.add_zero]⟩
      intro hmem
      exact hc (by simpa using hmem)

/-- A ledger whose single package already holds the only contract number
the zero entropy stream can produce in 2026. -/
def exhaustDB : DB :=
  { clients := [], companies := [sampleCompany],
    packages := [{ samplePackage with contract_number := "100000/2026" }],
    jobs := [], documents := [] }

/-- C7: contract-number candidates are `<6-digit random>/<year>` with the
numeric part in 100000..999999, each candidate is checked against existing
packages, only the first 15 draws are ever consulted, a successful
allocation returns an unused candidate among them, and exhaustion fails the
whole generation request with the allocation error (HTTP 500), creating
neither a package nor a job. -/
theorem C7_contract_number_allocation
    (db : DB) (body : GeneratePackageIn) (fetchCbr : Except String Rat)
    (today dateEntropy : Nat) (rand : Nat → Nat) (year : Nat)
    (cid pid jid : String) (company : Company) (fx : Rat)
    (hco : db.findCompany body.company_id = some company)
    (hfx : resolve_fx body.job fetchCbr = .ok fx)
    (halloc : allocate_contract_number
      (db.packages.map (fun p => p.contract_number)) rand year = none) :
    (∀ r y, generate_contract_number r y
        = toString (contract_number_numeric r) ++ "/" ++ toString y
      ∧ 100000 ≤ contract_number_numeric r
      ∧ contract_number_numeric r ≤ 999999)
    ∧ (∀ (existing : List String) (r1 r2 : Nat → Nat) (y : Nat),
        (∀ i, i < 15 → r1 i = r2 i) →
        allocate_contract_number existing r1 y
          = allocate_contract_number existing r2 y)
    ∧ (∀ (existing : List String) (r : Nat → Nat) (y : Nat) (c : String),
        allocate_contract_number existing r y = some c →
        c ∉ existing ∧ ∃ i, i < 15
          ∧ c = generate_contract_number (r i) y)
    ∧ generate_package db body fetchCbr today dateEntropy rand year
        cid pid jid
        = .error (.internalError "Failed to allocate unique contract number")
    ∧ postStateGen db (generate_package db body fetchCbr today dateEntropy
        rand year cid pid jid) = db := by
  have hfail : generate_package db body fetchCbr today dateEntropy rand year
      cid pid jid
      = .error (.internalError "Failed to allocate unique contract number") := by
    simp only [generate_package, hco, hfx, halloc]
  refine ⟨?_, ?_, ?_, hfail, by rw [hfail]; rfl⟩
  · intro r y
    refine ⟨rfl, ?_, ?_⟩
    · simp [contract_number_numeric, randbelow]
    · have : r % 900000 < 900000 := Nat.mod_lt r (by norm_num)
      simp only [contract_number_numeric, randbelow]
      omega
  · intro existing r1 r2 y h
    exact allocate_go_ext existing r1 r2 y 15 0 (fun k hk => by
      simpa using h k hk)
  · intro existing r y c h
    obtain ⟨hnot, k, hk, hck⟩ := allocate_go_some existing r y 15 0 c h
    exact ⟨hnot, k, hk, by simpa using hck⟩

/-- Witness for C7: with a zero entropy stream every candidate is
`100000/2026`, which `exhaustDB` already holds, so generation fails with
the allocation error and the ledger is unchanged. -/
theorem C7_contract_number_allocation_witness :
    exhaustDB.findCompany sampleGenBody.company_id = some sampleCompany ∧
    resolve_fx sampleGenBody.job (.ok 80) = .ok 90 ∧
    allocate_contract_number
      (exhaustDB.packages.map (fun p => p.contract_number)) (fun _ => 0)
      2026 = none ∧
    ((∀ r y, generate_contract_number r y
        = toString (contract_number_numeric r) ++ "/" ++ toString y
      ∧ 100000 ≤ contract_number_numeric r
      ∧ contract_number_numeric r ≤ 999999)
    ∧ (∀ (existing : List String) (r1 r2 : Nat → Nat) (y : Nat),
        (∀ i, i < 15 → r1 i = r2 i) →
        allocate_contract_number existing r1 y
          = allocate_contract_number existing r2 y)
    ∧ (∀ (existing : List String) (r : Nat → Nat) (y : Nat) (c : String),
        allocate_contract_number existing r y = some c →
        c ∉ existing ∧ ∃ i, i < 15
          ∧ c = generate_contract_number (r i) y)
    ∧ generate_package exhaustDB sampleGenBody (.ok 80) 100 0 (fun _ => 0)
        2026 "c9" "p9" "j9"
        = .error (.internalError "Failed to allocate unique contract number")
    ∧ postStateGen exhaustDB (generate_package exhaustDB sampleGenBody
        (.ok 80) 100 0 (fun _ => 0) 2026 "c9" "p9" "j9") = exhaustDB) :=
  ⟨rfl, rfl, rfl,
    C7_contract_number_allocation exhaustDB sampleGenBody (.ok 80) 100 0
      (fun _ => 0) 2026 "c9" "p9" "j9" sampleCompany 90 rfl rfl rfl⟩

/-- C8 (behaviour the code actually has, refuting the claim): regenerate
performs no mutation at all, rather than mutating only the counter and
inserting one job row.  The counter read is the `getattr` default 0, its
increment is a transient unmapped-attribute write, and
`models.Job(..., version=..., started_at=None, finished_at=None)` raises
`TypeError`, so the request returns HTTP 500 and the committed ledger —
packages, jobs, clients, companies, documents — is exactly the one before
the call: no counter change and no new job row. -/
theorem C8_regenerate_persists_nothing
    (db : DB) (pid jid : String) (pkg : Package)
    (hfind : db.findPackage pid = some pkg) :
    regenerate_package db pid jid
      = .error (.internalError
        "TypeError: version is an invalid keyword argument for Job")
    ∧ postStateRegen db (regenerate_package db pid jid) = db := by
  have h : regenerate_package db pid jid
      = .error (.internalError
        "TypeError: version is an invalid keyword argument for Job") := by
    simp only [regenerate_package, hfind]
  exact ⟨h, by rw [h]; rfl⟩

/-- Witness for C8 at the sample package. -/
theorem C8_regenerate_persists_nothing_witness :
    sampleDB.findPackage "p1" = some samplePackage ∧
    (regenerate_package sampleDB "p1" "j7"
      = .error (.internalError
        "TypeError: version is an invalid keyword argument for Job")
    ∧ postStateRegen sampleDB (regenerate_package sampleDB "p1" "j7")
        = sampleDB) :=
  ⟨rfl, C8_regenerate_persists_nothing sampleDB "p1" "j7" samplePackage
    rfl⟩

/-- C9 (behaviour the code actually has, refuting the required guarantee):
the read-then-increment sequence of `regenerate_package` has no
serialization point and, as written, never allocates a version at all —
each call reads the `getattr` default 0 for the unmapped counter, computes
`next_version = 1`, and crashes with `TypeError` before commit.  Two
concurrent regenerate calls on the same package therefore both return
HTTP 500, create no job rows and leave the counter column untouched under
every interleaving (neither call performs any ledger write), so the
distinct-and-consecutive version guarantee is unmet: nothing is ever
allocated. -/
theorem C9_concurrent_regenerate_unserialized
    (db : DB) (pid jA jB : String) (pkg : Package)
    (hfind : db.findPackage pid = some pkg) :
    regenerate_package db pid jA
      = .error (.internalError
        "TypeError: version is an invalid keyword argument for Job")
    ∧ regenerate_package db pid jB
      = .error (.internalError
        "TypeError: version is an invalid keyword argument for Job")
    ∧ postStateRegen db (regenerate_package db pid jA) = db
    ∧ postStateRegen (postStateRegen db (regenerate_package db pid jA))
        (regenerate_package (postStateRegen db (regenerate_package db pid
          jA)) pid jB)
      = db := by
  have h : ∀ j, regenerate_package db pid j
      = .error (.internalError
        "TypeError: version is an invalid keyword argument for Job") := by
    intro j
    simp only [regenerate_package, hfind]
  have h3 : postStateRegen db (regenerate_package db pid jA) = db := by
    rw [h jA]
    rfl
  refine ⟨h jA, h jB, h3, ?_⟩
  rw [h3, h jB]
  rfl

/-- Witness for C9: both regenerations of the sample package fail with the
TypeError 500 and allocate nothing. -/
theorem C9_concurrent_regenerate_unserialized_witness :
    sampleDB.findPackage "p1" = some samplePackage ∧
    (regenerate_package sampleDB "p1" "jA"
      = .error (.internalError
        "TypeError: version is an invalid keyword argument for Job")
    ∧ regenerate_package sampleDB "p1" "jB"
      = .error (.internalError
        "TypeError: version is an invalid keyword argument for Job")
    ∧ postStateRegen sampleDB (regenerate_package sampleDB "p1" "jA")
        = sampleDB
    ∧ postStateRegen
        (postStateRegen sampleDB (regenerate_package sampleDB "p1" "jA"))
        (regenerate_package (postStateRegen sampleDB (regenerate_package
          sampleDB "p1" "jA")) "p1" "jB")
      = sampleDB) :=
  ⟨rfl, C9_concurrent_regenerate_unserialized sampleDB "p1" "jA" "jB"
    samplePackage rfl⟩

end Visa
